import Mathlib

/-!
Verification of the rescue dispatch core of the AWS_Hackathon repository.

The embedding follows src/src/routing/route_optimizer.py and the ingestion
path of src/src/api/main.py. Floating point numbers are modelled as exact
rationals; wall-clock timestamps (Python datetime values) are modelled as
rational numbers of seconds, and the ambient clock read by datetime.now()
is passed as an explicit parameter called now. The OR-Tools constraint
solver invoked by RouteOptimizer._solve_vrp_for_responder is an external
library, not repository code; it is modelled by an abstract parameter
(named tour below) that returns the visit order of the routing nodes, and
the haversine distance helper, whose transcendental float arithmetic has
no exact embedding, is likewise passed as an abstract cost parameter.
Nothing in the routing model registers a disjunction, so every solution
the solver returns visits every victim node; the concrete instantiations
used in the witnesses respect that.
-/

namespace RescueDispatch

/-- Victim record, mirroring the dataclass Victim in route_optimizer.py.
Latitude, longitude, survival likelihood and the priority score are floats
in the source, modelled as rationals; time_detected is a datetime, modelled
as seconds. -/
structure Victim where
  id : String
  lat : ℚ
  lon : ℚ
  survival_likelihood : ℚ
  injury_level : String
  time_detected : ℚ
  priority_score : ℚ
deriving DecidableEq, Repr

/-- Responder record, mirroring the dataclass Responder in
route_optimizer.py. -/
structure Responder where
  id : String
  lat : ℚ
  lon : ℚ
  capacity : Nat
  status : String
  current_route : List String
deriving DecidableEq, Repr

/-- Route solution record, mirroring the dataclass RouteSolution in
route_optimizer.py. -/
structure RouteSolution where
  responder_id : String
  route : List String
  total_distance : ℚ
  estimated_time : ℚ
  victims_served : List String
deriving DecidableEq, Repr

/-- The mutable state of RouteOptimizer: the victims and responders
dictionaries. Python dicts preserve insertion order and key uniqueness, so
each is modelled as an insertion-ordered list with ids as keys. -/
structure RouteOptimizerState where
  victims : List Victim
  responders : List Responder
deriving DecidableEq, Repr

/-- Keyed upsert into an insertion-ordered list, mirroring the Python
dict assignment self.victims[victim.id] = victim: an existing key keeps
its position and receives the new value, a fresh key is appended. -/
def upsertById (idOf : α → String) : List α → α → List α
  | [], v => [v]
  | w :: ws, v => if idOf w = idOf v then v :: ws else w :: upsertById idOf ws v

/-- RouteOptimizer.add_victim: add or update victim information. -/
def addVictim (st : RouteOptimizerState) (v : Victim) : RouteOptimizerState :=
  { st with victims := upsertById Victim.id st.victims v }

/-- RouteOptimizer.add_responder: add or update responder information. -/
def addResponder (st : RouteOptimizerState) (r : Responder) : RouteOptimizerState :=
  { st with responders := upsertById Responder.id st.responders r }

/-- The injury level lookup injury_factors.get(victim.injury_level, 1.0)
in RouteOptimizer._calculate_priority_score. -/
def injuryFactor (lvl : String) : ℚ :=
  if lvl = "unconscious" then 3 / 2
  else if lvl = "severe" then 13 / 10
  else if lvl = "minor" then 11 / 10
  else if lvl = "none" then 1
  else 1

/-- RouteOptimizer._calculate_priority_score. The source reads
datetime.now(); that clock value is the explicit parameter now, in
seconds, and the elapsed time is converted to hours exactly as in the
source. -/
def calculatePriorityScore (now : ℚ) (v : Victim) : ℚ :=
  let base_score := v.survival_likelihood * 100
  let time_elapsed := (now - v.time_detected) / 3600
  let time_factor := 1 + time_elapsed / 24
  base_score * time_factor * injuryFactor v.injury_level

/-- One insertion step of the stable descending sort: the new element goes
in front of the first element whose priority score is not larger, so
elements with equal scores keep their original relative order. -/
def insertByScore (v : Victim) : List Victim → List Victim
  | [] => [v]
  | w :: ws =>
    if w.priority_score ≤ v.priority_score then v :: w :: ws
    else w :: insertByScore v ws

/-- The call sorted(victims, key score, reverse true) in
RouteOptimizer._select_top_victims: a stable sort by priority score in
descending order, realized as a stable insertion sort, which computes the
same list as any stable descending sort and so matches the Python sorted
builtin. -/
def sortByScoreDesc (l : List Victim) : List Victim :=
  l.foldr insertByScore []

/-- RouteOptimizer._select_top_victims: recompute every priority score in
place (the dataclass field is overwritten before it is read), sort by the
recomputed score in descending order, and keep the first max_victims
entries. -/
def selectTopVictims (now : ℚ) (victims : List Victim) (max_victims : Nat) :
    List Victim :=
  let scored := victims.map
    (fun v => { v with priority_score := calculatePriorityScore now v })
  (sortByScoreDesc scored).take max_victims

/-- The subset distance matrix of
RouteOptimizer._create_subset_distance_matrix as a function of node
indices: node 0 is the responder, node i+1 is victim i, the diagonal is
zero, and every off-diagonal entry is the truncated (int-cast) distance
between the two locations under the abstract cost function dist standing
for RouteOptimizer._calculate_distance. -/
def createSubsetDistanceMatrix (dist : ℚ × ℚ → ℚ × ℚ → ℚ)
    (r : Responder) (vs : List Victim) : Nat → Nat → ℚ :=
  let locs := (r.lat, r.lon) :: vs.map (fun v => (v.lat, v.lon))
  fun i j =>
    if i = j then 0
    else
      match locs.get? i, locs.get? j with
      | some a, some b => (⌊dist a b⌋ : ℚ)
      | _, _ => 0

/-- The arc cost accumulation loop of RouteOptimizer._extract_solution:
the solver walks the visit order from the start node and adds the arc cost
of every step whose target is not the end marker, which amounts to summing
the matrix entries over consecutive pairs of visited nodes. -/
def arcCostSum (d : Nat → Nat → ℚ) : List Nat → ℚ
  | a :: b :: rest => d a b + arcCostSum d (b :: rest)
  | _ => 0

/-- RouteOptimizer._extract_solution. The parameter order is the sequence
of node indices the solver visits, starting with the depot node 0; the
route collects the victim ids of the non-depot nodes with an in-bounds
index, the total distance sums the arc costs, the estimated time divides
each arc by the rubble speed 5000 / 3600 m per s and is reported in hours,
and victims_served keeps the id of every given victim whose id occurs in
the route. -/
def extractSolution (d : Nat → Nat → ℚ) (r : Responder) (vs : List Victim)
    (order : List Nat) : RouteSolution :=
  let route := order.filterMap
    (fun n => if n = 0 then none else (vs.get? (n - 1)).map Victim.id)
  let total_distance := arcCostSum d order
  let estimated_time := (arcCostSum d order / (5000 / 3600)) / 3600
  { responder_id := r.id
    route := route
    total_distance := total_distance
    estimated_time := estimated_time
    victims_served := (vs.filter (fun v => route.contains v.id)).map Victim.id }

/-- RouteOptimizer._solve_vrp_for_responder. The OR-Tools search is the
abstract parameter tour; when it yields a visit order the solution is
extracted from it, and an empty victim list or a failed search yields
none. -/
def solveVrpForResponder (tour : Responder → List Victim → Option (List Nat))
    (dist : ℚ × ℚ → ℚ × ℚ → ℚ) (r : Responder) (vs : List Victim) :
    Option RouteSolution :=
  if vs.isEmpty then none
  else
    match tour r vs with
    | none => none
    | some order =>
      some (extractSolution (createSubsetDistanceMatrix dist r vs) r vs order)

/-- Data for route visualization, mirroring the dictionary returned by
RouteOptimizer.get_route_visualization_data; the source returns an empty
dictionary when the responder id is unknown, modelled here as none. -/
structure RouteVisualizationData where
  responder_id : String
  route_coordinates : List (ℚ × ℚ)
  total_distance : ℚ
  estimated_time : ℚ
  victims_count : Nat
deriving DecidableEq, Repr

/-- RouteOptimizer.optimize_routes. An empty victims or responders
dictionary yields the empty list; otherwise the top victims are selected
over the whole registry, and every responder whose status is available is
given the same slice of the first max_victims_per_responder top victims to
route over; failed solves are skipped. The full-registry distance matrix
the source also builds only fills a cached field that the result never
reads, so it does not appear here. -/
def optimizeRoutes (tour : Responder → List Victim → Option (List Nat))
    (dist : ℚ × ℚ → ℚ × ℚ → ℚ) (now : ℚ) (st : RouteOptimizerState)
    (max_victims_per_responder : Nat) : List RouteSolution :=
  if st.victims.isEmpty ∨ st.responders.isEmpty then []
  else
    let top_victims := selectTopVictims now st.victims st.victims.length
    if top_victims.isEmpty then []
    else
      (st.responders.filter (fun r => r.status = "available")).filterMap
        (fun r =>
          let responder_victims := top_victims.take max_victims_per_responder
          if responder_victims.isEmpty then none
          else solveVrpForResponder tour dist r responder_victims)

/-- RouteOptimizer.get_route_visualization_data. The responder is looked
up by id in the responders dictionary; an unknown id yields the empty
dictionary, modelled as none. The route coordinates start at the
responder location, followed by the coordinates of every victim id of the
route that is found in the victims dictionary; unknown victim ids are
skipped. -/
def getRouteVisualizationData (st : RouteOptimizerState) (sol : RouteSolution) :
    Option RouteVisualizationData :=
  match st.responders.find? (fun r => r.id == sol.responder_id) with
  | none => none
  | some r =>
    some
      { responder_id := sol.responder_id
        route_coordinates :=
          (r.lat, r.lon) ::
            sol.route.filterMap
              (fun vid =>
                (st.victims.find? (fun v => v.id == vid)).map
                  (fun v => (v.lat, v.lon)))
        total_distance := sol.total_distance
        estimated_time := sol.estimated_time
        victims_count := sol.victims_served.length }

/-- The detected_person payload fields that the ingestion path of
src/src/api/main.py reads: the person id and the injury level. -/
structure DetectedPerson where
  person_id : String
  injury_level : String
deriving DecidableEq, Repr

/-- The ingestion step process_detected_person of src/src/api/main.py.
The survival likelihood comes from the external scikit-learn model over
features seeded deterministically by the person id, so it is modelled as
an abstract function of the person id (the estimate parameter). The
victim record is built with the drone position as its coordinates, the
current clock reading as time_detected, a zero priority score, and is
stored by keyed upsert into the victims dictionary. No coordinate
validation of any kind is performed. -/
def processDetectedPerson (estimate : String → ℚ) (victims : List Victim)
    (person : DetectedPerson) (dronePos : ℚ × ℚ) (now : ℚ) : List Victim :=
  upsertById Victim.id victims
    { id := person.person_id
      lat := dronePos.1
      lon := dronePos.2
      survival_likelihood := estimate person.person_id
      injury_level := person.injury_level
      time_detected := now
      priority_score := 0 }

/-- Transcribed from the wording of the specification for the statement
of the coordinate-validation claim: latitude within plus or minus 90
degrees and longitude within plus or minus 180 degrees. A NaN has no
rational representation, so invalidity is exhibited through an
out-of-range value. -/
def specValidCoordinates (lat lon : ℚ) : Prop :=
  -90 ≤ lat ∧ lat ≤ 90 ∧ -180 ≤ lon ∧ lon ≤ 180

instance (lat lon : ℚ) : Decidable (specValidCoordinates lat lon) := by
  unfold specValidCoordinates; infer_instance

/-- Transcribed from the priority formula of the specification, section
4.4, for the refinement comparison with the code formula: the injury
multiplier table over the four injury levels. -/
def specInjuryMultiplier (lvl : String) : ℚ :=
  if lvl = "unconscious" then 3 / 2
  else if lvl = "severe" then 13 / 10
  else if lvl = "minor" then 11 / 10
  else 1

/-- Transcribed from the priority formula of the specification, section
4.4: base score from survival likelihood, injury multiplier, and urgency
multiplier growing with the hours elapsed since detection. -/
def specPriorityScore (v : Victim) (now : ℚ) : ℚ :=
  let base := v.survival_likelihood * 100
  let elapsedHours := (now - v.time_detected) / 3600
  let urgencyMultiplier := 1 + elapsedHours / 24
  base * specInjuryMultiplier v.injury_level * urgencyMultiplier

/-- Victim lifecycle status of the specification data model. -/
inductive VictimStatus where
  | active
  | served
  | expired
deriving DecidableEq, Repr

/-- Modelled from the spec: the VictimRegistry record shape of section 3.
The repository source under src has no victim status field and no
assignment flag (the dataclass Victim in route_optimizer.py carries
neither), so the registry record needed by the staleness claim is
modelled from the specification data model. -/
structure RegVictim where
  id : String
  detectedAt : ℚ
  assigned : Bool
  status : VictimStatus
deriving DecidableEq, Repr

/-- Modelled from the spec: the operation expireStale(now, maxAge) of
section 4.2, absent from the source under src, which transitions every
active victim older than maxAge that has no responder assignment to the
expired status and leaves every other record unchanged. -/
def expireStale (now maxAge : ℚ) (reg : List RegVictim) : List RegVictim :=
  reg.map
    (fun v =>
      if v.status = VictimStatus.active ∧ v.assigned = false ∧
          maxAge < now - v.detectedAt
      then { v with status := VictimStatus.expired }
      else v)

/-- Modelled from the spec: the operation activeVictims() of section 4.2,
absent from the source under src, producing all active victims in
insertion order; planning consumes exactly this sequence. -/
def activeVictims (reg : List RegVictim) : List RegVictim :=
  reg.filter (fun v => decide (v.status = VictimStatus.active))

/-- A concrete solver instantiation for witnesses: visit the depot and
then every victim node in index order. Any solution of the source routing
model visits every node, since no disjunction is registered, so this is
one of its admissible outcomes. -/
def tourAll (_r : Responder) (vs : List Victim) : Option (List Nat) :=
  some (List.range (vs.length + 1))

/-- A degenerate cost function for witnesses at coinciding locations. -/
def distZero (_a _b : ℚ × ℚ) : ℚ := 0

/-- A constant external survival estimate for witnesses. -/
def estConst (_pid : String) : ℚ := 1 / 2

/-- Concrete snapshot for the double-assignment counterexample: one
victim and two available responders, all at the same location. -/
def stDouble : RouteOptimizerState :=
  { victims := [{ id := "v1", lat := 0, lon := 0, survival_likelihood := 1,
                  injury_level := "none", time_detected := 0, priority_score := 0 }]
    responders :=
      [{ id := "r1", lat := 0, lon := 0, capacity := 5, status := "available",
         current_route := [] },
       { id := "r2", lat := 0, lon := 0, capacity := 5, status := "available",
         current_route := [] }] }

/-- Concrete snapshot for the capacity counterexample: two victims and a
single available responder of capacity one, all at the same location. -/
def stCapacity : RouteOptimizerState :=
  { victims :=
      [{ id := "v1", lat := 0, lon := 0, survival_likelihood := 1,
         injury_level := "none", time_detected := 0, priority_score := 0 },
       { id := "v2", lat := 0, lon := 0, survival_likelihood := 1,
         injury_level := "none", time_detected := 0, priority_score := 0 }]
    responders :=
      [{ id := "r1", lat := 0, lon := 0, capacity := 1, status := "available",
         current_route := [] }] }

/-- Concrete snapshot for the determinism counterexample: two victims
whose priority order swaps as the clock advances, and one available
responder. -/
def stClock : RouteOptimizerState :=
  { victims :=
      [{ id := "a", lat := 0, lon := 0, survival_likelihood := 1 / 2,
         injury_level := "none", time_detected := 0, priority_score := 0 },
       { id := "b", lat := 0, lon := 0, survival_likelihood := 1,
         injury_level := "none", time_detected := 172800, priority_score := 0 }]
    responders :=
      [{ id := "r1", lat := 0, lon := 0, capacity := 5, status := "available",
         current_route := [] }] }

/-- The registry contents after ingesting two detections with distinct
person ids at the identical drone position. -/
def regSameLocation : List Victim :=
  processDetectedPerson estConst
    (processDetectedPerson estConst [] { person_id := "a", injury_level := "minor" }
      (0, 0) 0)
    { person_id := "b", injury_level := "minor" } (0, 0) 2

/-- Concrete victim used in witnesses of the scoring claims. -/
def vWitness : Victim :=
  { id := "w", lat := 0, lon := 0, survival_likelihood := 3 / 4,
    injury_level := "severe", time_detected := 0, priority_score := 0 }

/-- The solution the planner extracts for each responder of stDouble. -/
def solShared : RouteSolution :=
  { responder_id := "r1", route := ["v1"], total_distance := 0,
    estimated_time := 0, victims_served := ["v1"] }

/-- A route solution naming a responder id absent from every snapshot
used in the witnesses. -/
def solUnknown : RouteSolution :=
  { responder_id := "zz", route := [], total_distance := 0,
    estimated_time := 0, victims_served := [] }

/-- A detection payload with out-of-range coordinates supplied at the
drone position in the validation counterexample. -/
def personX : DetectedPerson := { person_id := "x", injury_level := "minor" }

/-- Concrete stale registry record for the expiry witness. -/
def vStale : RegVictim :=
  { id := "s1", detectedAt := 0, assigned := false, status := VictimStatus.active }

/-- Concrete registry for the expiry witness. -/
def regStale : List RegVictim := [vStale]

/-- Every injury factor of the code table is at least one. -/
theorem one_le_injuryFactor (lvl : String) : 1 ≤ injuryFactor lvl := by
  unfold injuryFactor
  split_ifs <;> norm_num

/-- Keyed upsert leaves exactly one record with the inserted key when the
initial list has pairwise distinct keys. -/
theorem countP_upsertById (idOf : α → String) (l : List α) (v : α)
    (h : l.Pairwise (fun a b => idOf a ≠ idOf b)) :
    (upsertById idOf l v).countP (fun w => idOf w == idOf v) = 1 := by
  induction l with
  | nil => simp [upsertById]
  | cons w ws ih =>
    rw [List.pairwise_cons] at h
    by_cases hw : idOf w = idOf v
    · have hzero : ws.countP (fun u => idOf u == idOf v) = 0 := by
        rw [List.countP_eq_zero]
        intro u hu
        simp only [beq_iff_eq]
        exact fun heq => h.1 u hu (hw.trans heq.symm)
      simp [upsertById, hw, List.countP_cons, hzero]
    · simp [upsertById, hw, List.countP_cons, ih h.2]

/-- Keyed upsert of the same value twice equals keyed upsert once. -/
theorem upsertById_idem (idOf : α → String) (l : List α) (v : α) :
    upsertById idOf (upsertById idOf l v) v = upsertById idOf l v := by
  induction l with
  | nil => simp [upsertById]
  | cons w ws ih =>
    by_cases hw : idOf w = idOf v
    · simp [upsertById, hw]
    · simp [upsertById, hw, ih]

/-- Keyed upsert always leaves at least one record with the inserted
key. -/
theorem one_le_countP_upsertById (idOf : α → String) (l : List α) (v : α) :
    1 ≤ (upsertById idOf l v).countP (fun w => idOf w == idOf v) := by
  induction l with
  | nil => simp [upsertById]
  | cons w ws ih =>
    by_cases hw : idOf w = idOf v
    · simp [upsertById, hw, List.countP_cons]
    · simp only [upsertById, if_neg hw, List.countP_cons]
      omega

/-- Inversion principle for membership in the planner output: every
returned solution was extracted from a successful solver run of some
available responder over the shared slice of the top victims. -/
theorem mem_optimizeRoutes {tour : Responder → List Victim → Option (List Nat)}
    {dist : ℚ × ℚ → ℚ × ℚ → ℚ} {now : ℚ} {st : RouteOptimizerState} {k : Nat}
    {s : RouteSolution} (h : s ∈ optimizeRoutes tour dist now st k) :
    ∃ r o,
      tour r ((selectTopVictims now st.victims st.victims.length).take k) = some o ∧
      s = extractSolution
            (createSubsetDistanceMatrix dist r
              ((selectTopVictims now st.victims st.victims.length).take k))
            r ((selectTopVictims now st.victims st.victims.length).take k) o := by
  simp only [optimizeRoutes] at h
  split_ifs at h with h1 h2 h3
  · simp at h
  · simp at h
  · simp at h
  · rcases List.mem_filterMap.mp h with ⟨r, _hr, hfn⟩
    unfold solveVrpForResponder at hfn
    rw [if_neg h3] at hfn
    rcases htour : tour r ((selectTopVictims now st.victims st.victims.length).take k)
      with _ | o
    · rw [htour] at hfn
      simp at hfn
    · rw [htour] at hfn
      refine ⟨r, o, htour, ?_⟩
      simpa using hfn.symm

/-- Every id in the extracted route is the id of one of the victims the
solver was given. -/
theorem mem_route_extractSolution {d : Nat → Nat → ℚ} {r : Responder}
    {vs : List Victim} {o : List Nat} {x : String}
    (h : x ∈ (extractSolution d r vs o).route) : ∃ v ∈ vs, v.id = x := by
  unfold extractSolution at h
  simp only at h
  rcases List.mem_filterMap.mp h with ⟨n, _hn, hfn⟩
  split_ifs at hfn with h0
  simp only [Option.map_eq_some'] at hfn
  rcases hfn with ⟨v, hget, hid⟩
  exact ⟨v, List.get?_mem hget, hid⟩

/-- In an extracted solution, the served victim ids are exactly the ids
occurring in the route. -/
theorem victims_served_iff_route {d : Nat → Nat → ℚ} {r : Responder}
    {vs : List Victim} {o : List Nat} {x : String} :
    x ∈ (extractSolution d r vs o).victims_served ↔
      x ∈ (extractSolution d r vs o).route := by
  constructor
  · intro h
    simp only [extractSolution] at h ⊢
    rcases List.mem_map.mp h with ⟨v, hv, hid⟩
    rcases List.mem_filter.mp hv with ⟨_, hcont⟩
    rw [List.contains_eq_any_beq] at hcont
    simp only [List.any_eq_true, beq_iff_eq] at hcont
    rcases hcont with ⟨y, hy, hyid⟩
    rwa [← hid, hyid]
  · intro h
    have hsrc : ∃ v ∈ vs, v.id = x := mem_route_extractSolution h
    rcases hsrc with ⟨v, hv, hid⟩
    simp only [extractSolution] at h ⊢
    refine List.mem_map.mpr ⟨v, List.mem_filter.mpr ⟨hv, ?_⟩, hid⟩
    rw [List.contains_eq_any_beq]
    simp only [List.any_eq_true, beq_iff_eq]
    exact ⟨x, h, hid⟩

/-- Collecting every index of a list through its optional lookup yields
the list itself, mapped. -/
theorem filterMap_get?_range (g : α → β) (vs : List α) :
    (List.range vs.length).filterMap (fun m => (vs.get? m).map g) = vs.map g := by
  induction vs with
  | nil => simp
  | cons v tl ih =>
    rw [List.length_cons, List.range_succ_eq_map, List.filterMap_cons, List.filterMap_map]
    simp only [List.get?, Option.map_some']
    have hfun : ((fun m => ((v :: tl).get? m).map g) ∘ Nat.succ) =
        fun m => (tl.get? m).map g := by
      funext m
      rfl
    rw [hfun, ih, List.map_cons]

/-- When the solver output is a permutation of all routing nodes, the
extracted route lists exactly one id per given victim. -/
theorem route_length_extractSolution {d : Nat → Nat → ℚ} {r : Responder}
    {vs : List Victim} {o : List Nat}
    (h : o.Perm (List.range (vs.length + 1))) :
    (extractSolution d r vs o).route.length = vs.length := by
  unfold extractSolution
  simp only
  have hperm :=
    (h.filterMap
      (fun n => if n = 0 then none else (vs.get? (n - 1)).map Victim.id)).length_eq
  rw [hperm, List.range_succ_eq_map, List.filterMap_cons, if_pos rfl,
    List.filterMap_map]
  have hfun :
      ((fun n => if n = 0 then none else (vs.get? (n - 1)).map Victim.id) ∘ Nat.succ) =
        fun m => (vs.get? m).map Victim.id := by
    funext m
    simp
  rw [hfun, filterMap_get?_range]
  exact List.length_map vs Victim.id

/-- C4: for every victim whose injury level is one of the four documented
levels, the code priority score equals the specification formula: the
survival likelihood times 100, times the injury multiplier (unconscious
3/2, severe 13/10, minor 11/10, none 1), times one plus the elapsed hours
between detection and now divided by 24. -/
theorem c4_priority_score_matches_spec (now : ℚ) (v : Victim)
    (h : v.injury_level = "unconscious" ∨ v.injury_level = "severe" ∨
      v.injury_level = "minor" ∨ v.injury_level = "none") :
    calculatePriorityScore now v = specPriorityScore v now := by
  rcases h with h | h | h | h <;>
    simp only [calculatePriorityScore, specPriorityScore, injuryFactor,
      specInjuryMultiplier, h, if_true, if_false, reduceIte] <;>
    ring

/-- Witness for C4 at a concrete severe victim and clock value. -/
theorem c4_priority_score_matches_spec_witness :
    calculatePriorityScore 7200 vWitness = specPriorityScore vWitness 7200 :=
  c4_priority_score_matches_spec 7200 vWitness (Or.inr (Or.inl rfl))

/-- C5: for a fixed victim with survival likelihood in the unit interval,
the priority score is monotonically non-decreasing in the evaluation
time. -/
theorem c5_priority_score_monotone (v : Victim) (t1 t2 : ℚ)
    (h0 : 0 ≤ v.survival_likelihood) (h1 : v.survival_likelihood ≤ 1)
    (hd : v.time_detected ≤ t1) (ht : t1 ≤ t2) :
    calculatePriorityScore t1 v ≤ calculatePriorityScore t2 v := by
  simp only [calculatePriorityScore]
  have hinj : (0 : ℚ) ≤ injuryFactor v.injury_level :=
    le_trans zero_le_one (one_le_injuryFactor _)
  have hbase : (0 : ℚ) ≤ v.survival_likelihood * 100 :=
    mul_nonneg h0 (by norm_num)
  have hfac : 1 + (t1 - v.time_detected) / 3600 / 24 ≤
      1 + (t2 - v.time_detected) / 3600 / 24 := by linarith
  exact mul_le_mul_of_nonneg_right (mul_le_mul_of_nonneg_left hfac hbase) hinj

/-- Witness for C5 at a concrete victim and two concrete clock values. -/
theorem c5_priority_score_monotone_witness :
    calculatePriorityScore 0 vWitness ≤ calculatePriorityScore 3600 vWitness :=
  c5_priority_score_monotone vWitness 0 3600 (by norm_num [vWitness])
    (by norm_num [vWitness]) (by norm_num [vWitness]) (by norm_num)

/-- C8: a planning pass over an empty victim set or an empty responder
set returns the empty solution list; the embedded pass is a total
function, so no error is raised. -/
theorem c8_empty_inputs_empty_output
    (tour : Responder → List Victim → Option (List Nat))
    (dist : ℚ × ℚ → ℚ × ℚ → ℚ) (now : ℚ) (k : Nat)
    (vs : List Victim) (rs : List Responder) :
    optimizeRoutes tour dist now { victims := [], responders := rs } k = [] ∧
      optimizeRoutes tour dist now { victims := vs, responders := [] } k = [] := by
  constructor <;> simp [optimizeRoutes]

/-- The table value of the injury factor at the level none. -/
theorem injuryFactor_none : injuryFactor "none" = 1 := by simp [injuryFactor]

/-- String disequality used while evaluating concrete runs. -/
theorem ne_str_v1_v2 : ("v1" : String) ≠ "v2" := by simp

/-- String disequality used while evaluating concrete runs. -/
theorem ne_str_v2_v1 : ("v2" : String) ≠ "v1" := by simp

/-- String disequality used while evaluating concrete runs. -/
theorem ne_str_a_b : ("a" : String) ≠ "b" := by simp

/-- String disequality used while evaluating concrete runs. -/
theorem ne_str_b_a : ("b" : String) ≠ "a" := by simp

set_option maxHeartbeats 1000000 in
/-- Evaluation of the planning pass over the snapshot stDouble: both
available responders receive the same single-victim route. -/
theorem optimizeRoutes_stDouble_eval :
    optimizeRoutes tourAll distZero 0 stDouble 5 =
      [solShared, { solShared with responder_id := "r2" }] := by
  norm_num [optimizeRoutes, stDouble, selectTopVictims, sortByScoreDesc,
    insertByScore, calculatePriorityScore, injuryFactor_none,
    solveVrpForResponder, tourAll, extractSolution,
    createSubsetDistanceMatrix, arcCostSum, distZero, solShared,
    List.filterMap, List.contains_eq_any_beq, List.any_cons, List.any_nil,
    List.filter, ne_str_v1_v2, ne_str_v2_v1, ne_str_a_b, ne_str_b_a, beq_iff_eq]

set_option maxHeartbeats 1000000 in
/-- Evaluation of the planning pass over the snapshot stCapacity: the
capacity-one responder receives a two-victim route. -/
theorem optimizeRoutes_stCapacity_eval :
    optimizeRoutes tourAll distZero 0 stCapacity 5 =
      [{ responder_id := "r1", route := ["v1", "v2"], total_distance := 0,
         estimated_time := 0, victims_served := ["v1", "v2"] }] := by
  norm_num [optimizeRoutes, stCapacity, selectTopVictims, sortByScoreDesc,
    insertByScore, calculatePriorityScore, injuryFactor_none,
    solveVrpForResponder, tourAll, extractSolution,
    createSubsetDistanceMatrix, arcCostSum, distZero,
    List.filterMap, List.contains_eq_any_beq, List.any_cons, List.any_nil,
    List.filter, ne_str_v1_v2, ne_str_v2_v1, ne_str_a_b, ne_str_b_a, beq_iff_eq]

set_option maxHeartbeats 1000000 in
/-- Evaluation of the planning pass over the snapshot stClock at the
earlier clock value: victim a still outranks victim b. -/
theorem optimizeRoutes_stClock_eval_early :
    optimizeRoutes tourAll distZero 172800 stClock 5 =
      [{ responder_id := "r1", route := ["a", "b"], total_distance := 0,
         estimated_time := 0, victims_served := ["a", "b"] }] := by
  norm_num [optimizeRoutes, stClock, selectTopVictims, sortByScoreDesc,
    insertByScore, calculatePriorityScore, injuryFactor_none,
    solveVrpForResponder, tourAll, extractSolution,
    createSubsetDistanceMatrix, arcCostSum, distZero,
    List.filterMap, List.contains_eq_any_beq, List.any_cons, List.any_nil,
    List.filter, ne_str_v1_v2, ne_str_v2_v1, ne_str_a_b, ne_str_b_a, beq_iff_eq]

set_option maxHeartbeats 1000000 in
/-- Evaluation of the planning pass over the snapshot stClock at the
later clock value: the faster-growing urgency of victim b has overtaken
victim a, reversing the route. -/
theorem optimizeRoutes_stClock_eval_late :
    optimizeRoutes tourAll distZero 345600 stClock 5 =
      [{ responder_id := "r1", route := ["b", "a"], total_distance := 0,
         estimated_time := 0, victims_served := ["b", "a"] }] := by
  norm_num [optimizeRoutes, stClock, selectTopVictims, sortByScoreDesc,
    insertByScore, calculatePriorityScore, injuryFactor_none,
    solveVrpForResponder, tourAll, extractSolution,
    createSubsetDistanceMatrix, arcCostSum, distZero,
    List.filterMap, List.contains_eq_any_beq, List.any_cons, List.any_nil,
    List.filter, ne_str_v1_v2, ne_str_v2_v1, ne_str_a_b, ne_str_b_a, beq_iff_eq]

/-- C10: in every solution returned by a planning pass, the served victim
id list contains exactly the ids occurring in the route list. -/
theorem c10_victims_served_matches_route
    (tour : Responder → List Victim → Option (List Nat))
    (dist : ℚ × ℚ → ℚ × ℚ → ℚ) (now : ℚ) (st : RouteOptimizerState) (k : Nat)
    (s : RouteSolution) (hs : s ∈ optimizeRoutes tour dist now st k)
    (x : String) : x ∈ s.victims_served ↔ x ∈ s.route := by
  rcases mem_optimizeRoutes hs with ⟨r, o, _, hex⟩
  rw [hex]
  exact victims_served_iff_route

/-- Witness for C10 at a concrete planning pass. -/
theorem c10_victims_served_matches_route_witness :
    "v1" ∈ solShared.victims_served ↔ "v1" ∈ solShared.route :=
  c10_victims_served_matches_route tourAll distZero 0 stDouble 5 solShared
    (by rw [optimizeRoutes_stDouble_eval]; exact List.mem_cons_self _ _)
    "v1"

/-- C1 counterexample: in the snapshot stDouble a single planning pass
returns two solutions and the lone victim id v1 occurs in the route of
both of them, so a victim id can appear in the routes of more than one
solution of the same pass. -/
theorem c1_counterexample :
    (optimizeRoutes tourAll distZero 0 stDouble 5).map RouteSolution.route =
        [["v1"], ["v1"]] ∧
      (optimizeRoutes tourAll distZero 0 stDouble 5).countP
          (fun s => s.route.contains "v1") = 2 := by
  rw [optimizeRoutes_stDouble_eval]
  constructor
  · simp [solShared]
  · simp [solShared, List.countP_cons, List.contains_eq_any_beq]

/-- C1 amended: a victim id may appear in the routes of several solutions
of one planning pass, because every available responder is routed over
the same shared slice of the top-priority victims; each route only draws
its ids from that shared slice. -/
theorem c1_routes_drawn_from_shared_selection
    (tour : Responder → List Victim → Option (List Nat))
    (dist : ℚ × ℚ → ℚ × ℚ → ℚ) (now : ℚ) (st : RouteOptimizerState) (k : Nat)
    (s : RouteSolution) (hs : s ∈ optimizeRoutes tour dist now st k)
    (x : String) (hx : x ∈ s.route) :
    x ∈ ((selectTopVictims now st.victims st.victims.length).take k).map
      Victim.id := by
  rcases mem_optimizeRoutes hs with ⟨r, o, _, hex⟩
  rw [hex] at hx
  rcases mem_route_extractSolution hx with ⟨v, hv, hid⟩
  exact List.mem_map.mpr ⟨v, hv, hid⟩

/-- Witness for the amended C1 at a concrete planning pass. -/
theorem c1_routes_drawn_from_shared_selection_witness :
    "v1" ∈ ((selectTopVictims 0 stDouble.victims stDouble.victims.length).take 5).map
      Victim.id :=
  c1_routes_drawn_from_shared_selection tourAll distZero 0 stDouble 5 solShared
    (by rw [optimizeRoutes_stDouble_eval]; exact List.mem_cons_self _ _)
    "v1" (by simp [solShared])

/-- C2 counterexample: in the snapshot stCapacity the only responder has
capacity one, yet the single solution of the pass routes two victims, so
a route can exceed the capacity of its responder; the planner never reads
the capacity field. -/
theorem c2_counterexample :
    stCapacity.responders.map Responder.capacity = [1] ∧
      (optimizeRoutes tourAll distZero 0 stCapacity 5).map
          (fun s => s.route.length) = [2] := by
  constructor
  · simp [stCapacity]
  · rw [optimizeRoutes_stCapacity_eval]
    simp

/-- C2 amended: the bound the code actually enforces is the
max-victims-per-responder cap of the call (default five), not the
responder capacity: whenever the solver output visits every node exactly
once, each route of the pass has at most that many victims. -/
theorem c2_route_length_le_cap
    (tour : Responder → List Victim → Option (List Nat))
    (dist : ℚ × ℚ → ℚ × ℚ → ℚ) (now : ℚ) (st : RouteOptimizerState) (k : Nat)
    (htour : ∀ r vs o, tour r vs = some o → o.Perm (List.range (vs.length + 1)))
    (s : RouteSolution) (hs : s ∈ optimizeRoutes tour dist now st k) :
    s.route.length ≤ k := by
  rcases mem_optimizeRoutes hs with ⟨r, o, ht, hex⟩
  rw [hex, route_length_extractSolution (htour _ _ _ ht), List.length_take]
  exact min_le_left _ _

/-- Witness for the amended C2 at a concrete planning pass. -/
theorem c2_route_length_le_cap_witness : solShared.route.length ≤ 5 :=
  c2_route_length_le_cap tourAll distZero 0 stDouble 5
    (fun _r vs o h => by
      simp only [tourAll, Option.some.injEq] at h
      rw [← h])
    solShared
    (by rw [optimizeRoutes_stDouble_eval]; exact List.mem_cons_self _ _)

/-- C6 counterexample: the planning pass reads the wall clock through
datetime.now inside the scoring step, so two passes over the unchanged
snapshot stClock taken at two different instants return different
solution lists: the elapsed-time urgency reorders the two victims. -/
theorem c6_counterexample :
    optimizeRoutes tourAll distZero 172800 stClock 5 ≠
      optimizeRoutes tourAll distZero 345600 stClock 5 := by
  rw [optimizeRoutes_stClock_eval_early, optimizeRoutes_stClock_eval_late]
  intro h
  injection h with h1 _
  have hroute := congrArg RouteSolution.route h1
  simp at hroute

/-- C6 amended: for a fixed clock value the pass is a pure function of
the snapshot and ignores the stored derived priority_score field, which
it recomputes before use; so two passes agree whenever they are evaluated
at the same time, while passes at different times may differ. -/
theorem c6_same_clock_snapshot_determinism
    (tour : Responder → List Victim → Option (List Nat))
    (dist : ℚ × ℚ → ℚ × ℚ → ℚ) (now : ℚ) (vs : List Victim)
    (rs : List Responder) (k : Nat) :
    optimizeRoutes tour dist now
        { victims := vs.map (fun v => { v with priority_score := 0 }),
          responders := rs } k =
      optimizeRoutes tour dist now { victims := vs, responders := rs } k := by
  have hmap :
      (vs.map (fun v => { v with priority_score := 0 })).map
          (fun v => { v with priority_score := calculatePriorityScore now v }) =
        vs.map (fun v => { v with priority_score := calculatePriorityScore now v }) := by
    rw [List.map_map]
    apply List.map_congr_left
    intro a _
    cases a
    rfl
  simp only [optimizeRoutes, selectTopVictims, List.length_map, hmap,
    List.isEmpty_eq_true, List.map_eq_nil_iff]

/-- C3 counterexample: ingesting two detections that carry distinct
person ids but the identical physical location (distance zero, inside any
merge radius) leaves two victim records for that location, not one: the
ingestion path deduplicates by id only and has no location-based merge. -/
theorem c3_counterexample :
    regSameLocation.map Victim.id = ["a", "b"] ∧
      regSameLocation.map (fun v => (v.lat, v.lon)) = [(0, 0), (0, 0)] := by
  constructor <;>
    simp [regSameLocation, processDetectedPerson, upsertById, estConst]

/-- C3 amended: detection ingestion is idempotent and order-insensitive
only with respect to the person id: over a registry with pairwise
distinct ids, ingesting a detection leaves exactly one record carrying
its person id, and ingesting the identical detection again at the same
clock reading changes nothing; detections at the same location with
distinct ids create distinct records. -/
theorem c3_dedup_keyed_by_id (estimate : String → ℚ) (victims : List Victim)
    (person : DetectedPerson) (pos : ℚ × ℚ) (now : ℚ)
    (h : victims.Pairwise (fun a b => a.id ≠ b.id)) :
    (processDetectedPerson estimate victims person pos now).countP
        (fun v => v.id == person.person_id) = 1 ∧
      processDetectedPerson estimate
          (processDetectedPerson estimate victims person pos now) person pos now =
        processDetectedPerson estimate victims person pos now := by
  constructor
  · unfold processDetectedPerson
    exact countP_upsertById Victim.id victims
      { id := person.person_id, lat := pos.1, lon := pos.2,
        survival_likelihood := estimate person.person_id,
        injury_level := person.injury_level, time_detected := now,
        priority_score := 0 } h
  · unfold processDetectedPerson
    exact upsertById_idem Victim.id victims _

/-- Witness for the amended C3 at a concrete detection. -/
theorem c3_dedup_keyed_by_id_witness :
    (processDetectedPerson estConst [] personX (0, 0) 0).countP
        (fun v => v.id == personX.person_id) = 1 ∧
      processDetectedPerson estConst
          (processDetectedPerson estConst [] personX (0, 0) 0) personX (0, 0) 0 =
        processDetectedPerson estConst [] personX (0, 0) 0 :=
  c3_dedup_keyed_by_id estConst [] personX (0, 0) 0 List.Pairwise.nil

/-- C7 counterexample: a detection whose coordinates are far out of range
is ingested without any failure and changes the registry, storing the
invalid coordinates verbatim, instead of failing with a validation error
and leaving the registry unchanged. -/
theorem c7_counterexample :
    ¬ specValidCoordinates 200 999 ∧
      (processDetectedPerson estConst [] personX (200, 999) 0).map
          (fun v => (v.id, v.lat, v.lon)) = [("x", 200, 999)] := by
  constructor
  · intro hvalid
    have h2 := hvalid.2.1
    norm_num at h2
  · simp [processDetectedPerson, upsertById, personX]

/-- C7 amended: ingestion performs no coordinate validation at all: every
detection, including one with NaN or out-of-range coordinates, is stored
under its person id; lookups through an unknown responder id are no-ops
that return the empty result rather than errors. -/
theorem c7_no_validation_unknown_id_noop (estimate : String → ℚ)
    (victims : List Victim) (person : DetectedPerson) (pos : ℚ × ℚ) (now : ℚ)
    (st : RouteOptimizerState) (sol : RouteSolution)
    (h : ∀ r ∈ st.responders, r.id ≠ sol.responder_id) :
    1 ≤ (processDetectedPerson estimate victims person pos now).countP
        (fun v => v.id == person.person_id) ∧
      getRouteVisualizationData st sol = none := by
  constructor
  · unfold processDetectedPerson
    exact one_le_countP_upsertById Victim.id victims
      { id := person.person_id, lat := pos.1, lon := pos.2,
        survival_likelihood := estimate person.person_id,
        injury_level := person.injury_level, time_detected := now,
        priority_score := 0 }
  · unfold getRouteVisualizationData
    have hfind : st.responders.find? (fun r => r.id == sol.responder_id) = none := by
      rw [List.find?_eq_none]
      intro r hr
      simpa using h r hr
    rw [hfind]

/-- Witness for the amended C7: the out-of-range detection is stored, and
the visualization of a solution naming an unknown responder id is
empty. -/
theorem c7_no_validation_unknown_id_noop_witness :
    1 ≤ (processDetectedPerson estConst [] personX (200, 999) 0).countP
        (fun v => v.id == personX.person_id) ∧
      getRouteVisualizationData stDouble solUnknown = none :=
  c7_no_validation_unknown_id_noop estConst [] personX (200, 999) 0 stDouble
    solUnknown
    (by decide)

/-- C9: the spec-modelled expireStale transitions every active victim
older than maxAge that has no responder assignment to the expired status,
and that victim is afterwards absent from activeVictims, the sequence
planning consumes. -/
theorem c9_expire_stale_expires (reg : List RegVictim) (now maxAge : ℚ)
    (v : RegVictim) (hmem : v ∈ reg)
    (huniq : ∀ w ∈ reg, w.id = v.id → w = v)
    (hact : v.status = VictimStatus.active) (hassign : v.assigned = false)
    (hold : maxAge < now - v.detectedAt) :
    { v with status := VictimStatus.expired } ∈ expireStale now maxAge reg ∧
      v.id ∉ (activeVictims (expireStale now maxAge reg)).map RegVictim.id := by
  constructor
  · unfold expireStale
    refine List.mem_map.mpr ⟨v, hmem, ?_⟩
    rw [if_pos ⟨hact, hassign, hold⟩]
  · intro hmm
    rcases List.mem_map.mp hmm with ⟨w, hw, hwid⟩
    rcases List.mem_filter.mp hw with ⟨hwmem, hwact⟩
    simp only [decide_eq_true_eq] at hwact
    rcases List.mem_map.mp hwmem with ⟨u, hu, hueq⟩
    by_cases hcond : u.status = VictimStatus.active ∧ u.assigned = false ∧
        maxAge < now - u.detectedAt
    · rw [if_pos hcond] at hueq
      rw [← hueq] at hwact
      cases hwact
    · rw [if_neg hcond] at hueq
      rw [hueq] at hu hcond
      have hwv : w = v := huniq w hu hwid
      rw [hwv] at hcond
      exact hcond ⟨hact, hassign, hold⟩

/-- Witness for C9 at a concrete one-record registry. -/
theorem c9_expire_stale_expires_witness :
    { vStale with status := VictimStatus.expired } ∈ expireStale 100000 3600 regStale ∧
      vStale.id ∉ (activeVictims (expireStale 100000 3600 regStale)).map
        RegVictim.id :=
  c9_expire_stale_expires regStale 100000 3600 vStale
    (List.mem_cons_self _ _)
    (fun w hw _ => List.mem_singleton.mp hw)
    rfl rfl (by norm_num [vStale])

end RescueDispatch
